import Mathlib

/-!
Verification of `sprockets.mixins.correlation` (file
`sprockets/mixins/correlation/mixins.py`).

The development shallowly embeds the two classes `HandlerMixin` /
`LoggingMixin`, the `CorrelationAdapter` logging adapter and the
`correlation_id_logger` access-log writer.

Modelling choices:
* Header collections are association lists of `(name, value)` pairs.
  Tornado's `HTTPHeaders.get` (the object behind `self.request.headers`)
  is external to this repository and is modelled from the spec as a
  case-insensitive lookup.
* `set_header` on the response overwrites any previous value for the name.
* Python's `%`-formatting of the access-log template is embedded as a
  small interpreter `pyFmtAux` over the template's character list.
* The request duration (a Python float, seconds) is modelled in exact
  fixed-point arithmetic at microsecond grain; `%.2f` is modelled as
  round-half-to-even on that exact value, which matches CPython's
  formatting at this grain.
-/

namespace Correlation

/-! ### Python `%`-formatting model -/

/-- A value passed to `%`-formatting.  `vf micros` models the float
`micros / 1000` (a duration in milliseconds held at microsecond grain). -/
inductive PyVal where
  | vd (n : Nat)
  | vs (s : String)
  | vf (micros : Nat)
  | vnone
  deriving DecidableEq

/-- Round `micros / 10` (the duration in hundredths of a millisecond) to an
integer, ties to even: the behaviour of `%.2f` on the exact value. -/
def roundHundredths (micros : Nat) : Nat :=
  let q := micros / 10
  let r := micros % 10
  if r < 5 then q
  else if 5 < r then q + 1
  else if q % 2 = 0 then q else q + 1

/-- The two fractional digits of a hundredths count. -/
def fracPart2 (h : Nat) : String :=
  String.mk [Nat.digitChar (h / 10 % 10), Nat.digitChar (h % 10)]

/-- Rendering of `%.2f` applied to the float `micros / 1000` (milliseconds at microsecond
grain): integer part, a dot, and exactly two fractional digits. -/
def fmtMsFixed2 (micros : Nat) : String :=
  let h := roundHundredths micros
  Nat.repr (h / 100) ++ "." ++ fracPart2 h

/-- Python `str()` of a formatting value (used by `%s`). -/
def pyStr : PyVal → String
  | PyVal.vd n => Nat.repr n
  | PyVal.vs s => s
  | PyVal.vf micros => fmtMsFixed2 micros
  | PyVal.vnone => "None"

/-- A possibly-`None` Python string as a `%`-formatting value. -/
def pyOfOpt : Option String → PyVal
  | none => PyVal.vnone
  | some s => PyVal.vs s

/-- Interpreter for the subset of Python `%`-formatting used by the source
(`%d`, `%s`, `%.2f`, `%%`); `none` models a `TypeError`. -/
def pyFmtAux : List Char → List PyVal → Option (List Char)
  | [], [] => some []
  | [], _ :: _ => none
  | '%' :: '%' :: rest, vs => Option.map (fun t => '%' :: t) (pyFmtAux rest vs)
  | '%' :: 'd' :: rest, PyVal.vd n :: vs =>
      Option.map (fun t => (Nat.repr n).data ++ t) (pyFmtAux rest vs)
  | '%' :: 'd' :: _, _ => none
  | '%' :: '.' :: '2' :: 'f' :: rest, PyVal.vf k :: vs =>
      Option.map (fun t => (fmtMsFixed2 k).data ++ t) (pyFmtAux rest vs)
  | '%' :: '.' :: _, _ => none
  | '%' :: 's' :: rest, v :: vs =>
      Option.map (fun t => (pyStr v).data ++ t) (pyFmtAux rest vs)
  | '%' :: 's' :: _, [] => none
  | '%' :: _, _ => none
  | c :: rest, vs => Option.map (fun t => c :: t) (pyFmtAux rest vs)

/-- Python `fmt % vals` producing a `String`. -/
def pyFormat (fmt : List Char) (vals : List PyVal) : Option String :=
  Option.map String.mk (pyFmtAux fmt vals)

/-! ### Header collections -/

/-- Lower-case a header name character-wise (the case normalization of
HTTP header-name comparison). -/
def lowerName (s : String) : String :=
  String.mk (s.data.map Char.toLower)

/-- Modelled from the spec: Tornado's `HTTPHeaders.get` behind
`self.request.headers` is not part of this repository; per the spec the
inbound header collection is "keyed case-insensitively" ("case-insensitive
per HTTP semantics"), returning `default` when the name is absent. -/
def headersGet (hs : List (String × String)) (name : String)
    (default : Option String) : Option String :=
  match hs.find? (fun p => lowerName p.1 == lowerName name) with
  | some p => some p.2
  | none => default

/-- Model of `RequestHandler.set_header`: overwrite any previous value for `name`
in the outbound header collection. -/
def set_header (hs : List (String × String)) (name value : String) :
    List (String × String) :=
  (name, value) :: hs.filter (fun p => p.1 != name)

/-- Exact-name lookup in the outbound header collection (all writes of the
mixin use the one configured name). -/
def lookupHeader (hs : List (String × String)) (name : String) :
    Option String :=
  Option.map (fun p => p.2) (hs.find? (fun p => p.1 == name))

/-! ### `HandlerMixin` state and operations -/

/-- The per-request state of a handler with `HandlerMixin` (and, for the
`LoggingMixin` claims, the `_finished` flag and the adapter's id). -/
structure HandlerState where
  headerName : String
  correlation_id : String
  responseHeaders : List (String × String)
  requestHeaders : List (String × String)
  finished : Bool
  loggerCid : Option String
  deriving DecidableEq

/-- Model of `HandlerMixin.get_request_header`: `self.request.headers.get(name, default)`. -/
def get_request_header (s : HandlerState) (name : String)
    (default : Option String) : Option String :=
  headersGet s.requestHeaders name default

/-- Model of `HandlerMixin.set_default_headers`: re-assert the correlation header
with the current identifier. -/
def set_default_headers (s : HandlerState) : HandlerState :=
  { s with responseHeaders :=
      set_header s.responseHeaders s.headerName s.correlation_id }

/-- The `correlation_id` property setter: store the value and immediately
re-write the outbound header. -/
def set_correlation_id (s : HandlerState) (value : String) : HandlerState :=
  { s with correlation_id := value,
           responseHeaders := set_header s.responseHeaders s.headerName value }

/-- Model of `HandlerMixin.prepare`: read the inbound header (default `None`); when
the result `is not None`, assign it through the property setter. -/
def prepare (s : HandlerState) : HandlerState :=
  match get_request_header s s.headerName none with
  | some v => set_correlation_id s v
  | none => s

/-- Model of `HandlerMixin.__init__`: pop `correlation_header` (default
`Correlation-ID`), store a fresh UUID string, then delegate to the base
`RequestHandler.__init__`, which establishes default headers (calling
`set_default_headers`). -/
def mkHandler (correlationHeaderKw : Option String) (freshUuid : String)
    (reqHeaders : List (String × String)) : HandlerState :=
  set_default_headers
    { headerName := correlationHeaderKw.getD "Correlation-ID",
      correlation_id := freshUuid,
      responseHeaders := [],
      requestHeaders := reqHeaders,
      finished := false,
      loggerCid := none }

/-- Model of `LoggingMixin.prepare`: run `HandlerMixin.prepare`, then, only when
`self._finished` is false, copy the identifier into the adapter. -/
def logging_prepare (s : HandlerState) : HandlerState :=
  let t := prepare s
  if t.finished then t else { t with loggerCid := some t.correlation_id }

/-- The request-lifetime events acting on the handler state: the
default-headers hook, the property setter, `prepare`, and Tornado's
`clear()` on the error path (which resets the outbound headers and
re-invokes `set_default_headers`). -/
inductive HandlerEv where
  | evSetDefaultHeaders
  | evSetIdentifier (v : String)
  | evPrepare
  | evLoggingPrepare
  | evClear

/-- One event step. -/
def stepEv (s : HandlerState) : HandlerEv → HandlerState
  | HandlerEv.evSetDefaultHeaders => set_default_headers s
  | HandlerEv.evSetIdentifier v => set_correlation_id s v
  | HandlerEv.evPrepare => prepare s
  | HandlerEv.evLoggingPrepare => logging_prepare s
  | HandlerEv.evClear => set_default_headers { s with responseHeaders := [] }

/-- A whole request lifetime: events folded over the constructed state. -/
def runEv (s : HandlerState) (evs : List HandlerEv) : HandlerState :=
  evs.foldl stepEv s

/-! ### `CorrelationAdapter` -/

/-- Python truthiness of the adapter's `correlation_id` field
(`None` and the empty string are falsy). -/
def truthy : Option String → Bool
  | none => false
  | some s => !s.isEmpty

/-- Model of `CorrelationAdapter.process`: append `' {CID %s}' % (correlation_id,)`
to the message exactly when the identifier is truthy (`%s` of the string
is the string itself), then delegate to the base class, which leaves the
message unchanged. -/
def CorrelationAdapter.process (cid : Option String) (msg : String) : String :=
  if truthy cid then msg ++ " \x7bCID " ++ pyStr (pyOfOpt cid) ++ "\x7d"
  else msg

/-- A record handed to the wrapped logger: the processed message template
and the untouched positional-argument list. -/
structure LogRecord where
  msg : String
  args : List String
  deriving DecidableEq

/-- Model of `LoggerAdapter.log` as inherited by `CorrelationAdapter`: the message
goes through `process`; positional arguments are passed on unchanged. -/
def CorrelationAdapter.log (cid : Option String) (msg : String)
    (args : List String) : LogRecord :=
  { msg := CorrelationAdapter.process cid msg, args := args }

/-! ### `correlation_id_logger` -/

/-- Severity of the emitted access-log line. -/
inductive LogLevel where
  | info
  | warning
  | error
  deriving DecidableEq

/-- The handler object as seen by `correlation_id_logger`.
`correlationIdAttr = none` models a handler with no `correlation_id`
attribute at all (no provider mixed in); `some v` models `getattr`
finding the attribute with value `v` (`v = none` is Python `None`).
`configuredHeader` is the provider's configured header name; it is
carried to express that the access-log writer never consults it. -/
structure AccessLogHandler where
  status : Nat
  requestSummary : String
  requestTimeMicros : Nat
  correlationIdAttr : Option (Option String)
  requestHeaders : List (String × String)
  configuredHeader : String
  deriving DecidableEq

/-- Model of `getattr(handler, "correlation_id", None)`. -/
def getattr_correlation_id (h : AccessLogHandler) : Option String :=
  match h.correlationIdAttr with
  | none => none
  | some v => v

/-- The literal template of the access-log line,
`"%d %s %.2fms {CID %s}"`, as its character list. -/
def accessFmt : List Char :=
  ['%', 'd', ' ', '%', 's', ' ', '%', '.', '2', 'f', 'm', 's', ' ',
   '\x7b', 'C', 'I', 'D', ' ', '%', 's', '\x7d']

/-- The identifier-resolution lines of `correlation_id_logger`:
`correlation_id = getattr(handler, "correlation_id", None)` followed by
`if correlation_id is None: correlation_id = handler.request.headers.get('Correlation-ID', None)`. -/
def resolveCid (h : AccessLogHandler) : Option String :=
  match getattr_correlation_id h with
  | none => headersGet h.requestHeaders "Correlation-ID" none
  | some v => some v

/-- Model of `correlation_id_logger(handler)`: choose the severity from the status
band, compute the request time in milliseconds (the `* 1000.0` of the
source is the seconds-to-milliseconds unit change of the fixed-point
model), resolve the identifier (attribute first, then the raw
`Correlation-ID` request header), and emit the formatted line. -/
def correlation_id_logger (h : AccessLogHandler) : LogLevel × Option String :=
  let log_method :=
    if h.status < 400 then LogLevel.info
    else if h.status < 500 then LogLevel.warning
    else LogLevel.error
  (log_method,
   pyFormat accessFmt
     [PyVal.vd h.status, PyVal.vs h.requestSummary,
      PyVal.vf h.requestTimeMicros, pyOfOpt (resolveCid h)])

/-- The access-log line as the spec's literal form spells it out, for a
resolved identifier value. -/
def mkAccessLine (h : AccessLogHandler) (cid : Option String) : String :=
  Nat.repr h.status ++ " " ++ h.requestSummary ++ " " ++
    fmtMsFixed2 h.requestTimeMicros ++ "ms \x7bCID " ++
    pyStr (pyOfOpt cid) ++ "\x7d"

/-! ### Helper lemmas -/

/-- Writing a header makes it readable with the written value. -/
lemma lookupHeader_set_header (hs : List (String × String)) (n v : String) :
    lookupHeader (set_header hs n v) n = some v := by
  simp [lookupHeader, set_header, List.find?]

/-- Rewriting the same header with the same value leaves the collection
unchanged. -/
lemma set_header_idem (hs : List (String × String)) (n v : String) :
    set_header (set_header hs n v) n v = set_header hs n v := by
  simp [set_header, List.filter_filter]

/-- The outbound-header invariant: the configured header reads back as the
current identifier. -/
def headerInv (s : HandlerState) : Prop :=
  lookupHeader s.responseHeaders s.headerName = some s.correlation_id

lemma headerInv_set_default_headers (s : HandlerState) :
    headerInv (set_default_headers s) := by
  simp [headerInv, set_default_headers, lookupHeader_set_header]

lemma headerInv_set_correlation_id (s : HandlerState) (v : String) :
    headerInv (set_correlation_id s v) := by
  simp [headerInv, set_correlation_id, lookupHeader_set_header]

lemma headerInv_prepare (s : HandlerState) (h : headerInv s) :
    headerInv (prepare s) := by
  unfold prepare
  cases get_request_header s s.headerName none with
  | none => exact h
  | some v => exact headerInv_set_correlation_id s v

lemma prepare_finished (s : HandlerState) :
    (prepare s).finished = s.finished := by
  unfold prepare
  cases get_request_header s s.headerName none <;>
    simp [set_correlation_id]

lemma prepare_loggerCid (s : HandlerState) :
    (prepare s).loggerCid = s.loggerCid := by
  unfold prepare
  cases get_request_header s s.headerName none <;>
    simp [set_correlation_id]

lemma headerInv_logging_prepare (s : HandlerState) (h : headerInv s) :
    headerInv (logging_prepare s) := by
  have hp := headerInv_prepare s h
  unfold logging_prepare
  cases hf : (prepare s).finished <;> simp only [hf] <;> exact hp

lemma headerInv_stepEv (s : HandlerState) (e : HandlerEv)
    (h : headerInv s) : headerInv (stepEv s e) := by
  cases e with
  | evSetDefaultHeaders => exact headerInv_set_default_headers s
  | evSetIdentifier v => exact headerInv_set_correlation_id s v
  | evPrepare => exact headerInv_prepare s h
  | evLoggingPrepare => exact headerInv_logging_prepare s h
  | evClear => exact headerInv_set_default_headers _

lemma headerInv_runEv (evs : List HandlerEv) (s : HandlerState)
    (h : headerInv s) : headerInv (runEv s evs) := by
  induction evs generalizing s with
  | nil => exact h
  | cons e evs ih =>
      show headerInv (runEv (stepEv s e) evs)
      exact ih (stepEv s e) (headerInv_stepEv s e h)

/-! ### Claim theorems -/

/-- C1: for every request, whenever a response is emitted (success or
error), the outbound correlation header is present and equals the
provider's current identifier: along any sequence of the mixin's
operations (the default-headers hook at initialization and after an
error-driven reset, `prepare`, and identifier assignments), the response
headers always carry the configured header with the current
`correlation_id`. -/
theorem C1_outbound_header_equals_current_identifier
    (kw : Option String) (freshUuid : String)
    (reqHs : List (String × String)) (evs : List HandlerEv) :
    lookupHeader (runEv (mkHandler kw freshUuid reqHs) evs).responseHeaders
        (runEv (mkHandler kw freshUuid reqHs) evs).headerName =
      some (runEv (mkHandler kw freshUuid reqHs) evs).correlation_id :=
  headerInv_runEv evs _ (headerInv_set_default_headers _)

lemma set_default_headers_idem (s : HandlerState) :
    set_default_headers (set_default_headers s) = set_default_headers s := by
  simp [set_default_headers, set_header_idem]

lemma set_default_headers_iterate (n : Nat) (s : HandlerState) :
    set_default_headers^[n] (set_default_headers s) =
      set_default_headers s := by
  induction n with
  | zero => rfl
  | succ m ih =>
      rw [Function.iterate_succ_apply', ih, set_default_headers_idem]

/-- C7: invoking the default-headers hook any number of times in sequence,
with no intervening identifier assignment, produces the same handler state
(and thus the same header value) as invoking it once. -/
theorem C7_default_headers_hook_idempotent (s : HandlerState) (n : Nat)
    (h : 1 ≤ n) :
    set_default_headers^[n] s = set_default_headers s := by
  obtain ⟨m, rfl⟩ : ∃ m, n = m + 1 := ⟨n - 1, by omega⟩
  rw [Function.iterate_succ_apply]
  exact set_default_headers_iterate m s

/-- Witness for C7 at a concrete state and three invocations. -/
theorem C7_default_headers_hook_idempotent_witness :
    1 ≤ 3 ∧
    set_default_headers^[3]
        { headerName := "Correlation-ID", correlation_id := "u1",
          responseHeaders := [], requestHeaders := [],
          finished := false, loggerCid := none } =
      set_default_headers
        { headerName := "Correlation-ID", correlation_id := "u1",
          responseHeaders := [], requestHeaders := [],
          finished := false, loggerCid := none } :=
  ⟨by decide,
   C7_default_headers_hook_idempotent
     { headerName := "Correlation-ID", correlation_id := "u1",
       responseHeaders := [], requestHeaders := [],
       finished := false, loggerCid := none } 3 (by decide)⟩

/-- C8: after the logging mixin's prepare hook, the adapter's identifier
equals the provider's current identifier exactly when the response was not
already finalized; when it was, the adapter keeps whatever value was last
set, and the provider's identifier is whatever `prepare` produced. -/
theorem C8_logger_sync_iff_not_finished (s : HandlerState) :
    (logging_prepare s).loggerCid =
      (if s.finished then s.loggerCid
       else some ((prepare s).correlation_id))
    ∧ (logging_prepare s).correlation_id = (prepare s).correlation_id := by
  have hpf := prepare_finished s
  have hpl := prepare_loggerCid s
  unfold logging_prepare
  cases hf : s.finished <;> simp [hpf, hf, hpl]

/-- C2, counterexample: the inbound correlation header present with an
empty value is adopted by `prepare` (the source tests `is not None`, not
truthiness), so the freshly generated default is overwritten, contrary to
the claim that an empty header keeps the default. -/
theorem C2_empty_header_adopted_counterexample :
    (prepare (mkHandler none "generated-uuid"
        [("Correlation-ID", "")])).correlation_id = ""
    ∧ (prepare (mkHandler none "generated-uuid"
        [("Correlation-ID", "")])).correlation_id ≠ "generated-uuid"
    ∧ lookupHeader
        (prepare (mkHandler none "generated-uuid"
          [("Correlation-ID", "")])).responseHeaders
        "Correlation-ID" = some "" := by
  decide

/-- C2 (amended): `prepare` adopts the inbound header's value exactly when
the header is present (empty or not), re-writing the outbound header with
that verbatim value; when the header is absent the state, and with it the
freshly generated identifier, is kept unchanged. -/
theorem C2_prepare_adopts_iff_header_present (s : HandlerState)
    (v : String) :
    (get_request_header s s.headerName none = some v →
        (prepare s).correlation_id = v
        ∧ lookupHeader (prepare s).responseHeaders
            (prepare s).headerName = some v)
    ∧ (get_request_header s s.headerName none = none → prepare s = s) := by
  constructor
  · intro hv
    unfold prepare
    rw [hv]
    exact ⟨rfl, by simp [set_correlation_id, lookupHeader_set_header]⟩
  · intro hn
    unfold prepare
    rw [hn]

/-- Witness for C2 (amended) on a concrete request carrying a mixed-case
inbound header. -/
theorem C2_prepare_adopts_iff_header_present_witness :
    get_request_header
        (mkHandler none "u0" [("Correlation-Id", "deadbeef")])
        (mkHandler none "u0" [("Correlation-Id", "deadbeef")]).headerName
        none = some "deadbeef"
    ∧ (prepare (mkHandler none "u0"
        [("Correlation-Id", "deadbeef")])).correlation_id = "deadbeef" :=
  ⟨by decide,
   ((C2_prepare_adopts_iff_header_present
       (mkHandler none "u0" [("Correlation-Id", "deadbeef")])
       "deadbeef").1 (by decide)).1⟩

/-- C9: `get_request_header` reads the inbound header case-insensitively
(names equal up to letter case give the same result) and returns the
default when the header is absent; concretely, a request carrying
`Correlation-Id: deadbeef` (mixed case) still carries the outbound header
`deadbeef` after the error path re-establishes default headers. -/
theorem C9_request_header_case_insensitive (s : HandlerState)
    (n1 n2 : String) (d : Option String) :
    (lowerName n1 = lowerName n2 →
        get_request_header s n1 d = get_request_header s n2 d)
    ∧ ((∀ p ∈ s.requestHeaders, lowerName p.1 ≠ lowerName n1) →
        get_request_header s n1 d = d)
    ∧ lookupHeader
        (runEv (mkHandler none "fresh-uuid" [("Correlation-Id", "deadbeef")])
          [HandlerEv.evPrepare, HandlerEv.evClear]).responseHeaders
        "Correlation-ID" = some "deadbeef" := by
  refine ⟨fun hl => ?_, fun ha => ?_, by decide⟩
  · simp [get_request_header, headersGet, hl]
  · have hfind : s.requestHeaders.find?
        (fun p => lowerName p.1 == lowerName n1) = none := by
      rw [List.find?_eq_none]
      intro p hp
      simpa using ha p hp
    simp [get_request_header, headersGet, hfind]

/-- Witness for C9 at concrete names and header collections. -/
theorem C9_request_header_case_insensitive_witness :
    get_request_header
        (mkHandler none "u" [("Correlation-Id", "deadbeef")])
        "CORRELATION-ID" none =
      get_request_header
        (mkHandler none "u" [("Correlation-Id", "deadbeef")])
        "correlation-id" none
    ∧ get_request_header
        (mkHandler none "u" [("Correlation-Id", "deadbeef")])
        "X-Missing" (some "dflt") = some "dflt" :=
  ⟨(C9_request_header_case_insensitive
      (mkHandler none "u" [("Correlation-Id", "deadbeef")])
      "CORRELATION-ID" "correlation-id" none).1 (by decide),
   (C9_request_header_case_insensitive
      (mkHandler none "u" [("Correlation-Id", "deadbeef")])
      "X-Missing" "X-Missing" (some "dflt")).2.1 (by decide)⟩

/-- Evaluation of the access-log template interpreter on the source's
literal template and a well-typed argument list. -/
lemma pyFmtAux_access (n : Nat) (s : String) (k : Nat) (v : PyVal) :
    pyFmtAux accessFmt [PyVal.vd n, PyVal.vs s, PyVal.vf k, v] =
      some ((Nat.repr n).data ++ ' ' :: (s.data ++ ' ' ::
        ((fmtMsFixed2 k).data ++ 'm' :: 's' :: ' ' :: '\x7b' :: 'C' :: 'I' ::
          'D' :: ' ' :: ((pyStr v).data ++ ['\x7d'])))) := rfl

/-- The formatted access-log line, at string level. -/
lemma pyFormat_access (h : AccessLogHandler) (c : Option String) :
    pyFormat accessFmt
        [PyVal.vd h.status, PyVal.vs h.requestSummary,
         PyVal.vf h.requestTimeMicros, pyOfOpt c] =
      some (mkAccessLine h c) := by
  rw [pyFormat, pyFmtAux_access, Option.map_some']
  apply congrArg some
  apply String.ext
  simp [mkAccessLine, String.data_append]

/-- The line emitted by the access-log writer is the literal template
instantiated at the resolved identifier. -/
lemma correlation_id_logger_line (h : AccessLogHandler) :
    (correlation_id_logger h).2 = some (mkAccessLine h (resolveCid h)) :=
  pyFormat_access h (resolveCid h)

/-- C3: logging through the adapter appends the suffix
`' {CID <identifier>}'` to the message exactly when the identifier is set
to a non-empty value, leaves the message untouched when the identifier is
unset or empty, and never mutates the positional-argument list;
`'hello'` with identifier `'abc'` yields exactly `'hello {CID abc}'`, and
with identifier unset exactly `'hello'`. -/
theorem C3_adapter_appends_cid_suffix :
    (∀ (cid : Option String) (msg : String) (args : List String),
        (CorrelationAdapter.log cid msg args).args = args
        ∧ ((∃ s, cid = some s ∧ s ≠ "") →
            (CorrelationAdapter.log cid msg args).msg =
              msg ++ " \x7bCID " ++ cid.getD "" ++ "\x7d")
        ∧ (cid = none ∨ cid = some "" →
            (CorrelationAdapter.log cid msg args).msg = msg))
    ∧ (CorrelationAdapter.log (some "abc") "hello" []).msg =
        "hello \x7bCID abc\x7d"
    ∧ (CorrelationAdapter.log none "hello" []).msg = "hello" := by
  refine ⟨fun cid msg args => ⟨rfl, ?_, ?_⟩, by decide, by decide⟩
  · rintro ⟨s, rfl, hs⟩
    simp [CorrelationAdapter.log, CorrelationAdapter.process, truthy,
      pyStr, pyOfOpt, String.isEmpty_iff, hs]
  · rintro (rfl | rfl) <;>
      simp [CorrelationAdapter.log, CorrelationAdapter.process, truthy,
        String.isEmpty_iff]

/-- Witness for C3 at a concrete identifier, message, and argument list. -/
theorem C3_adapter_appends_cid_suffix_witness :
    (CorrelationAdapter.log (some "abc") "hi" ["arg"]).args = ["arg"]
    ∧ (CorrelationAdapter.log (some "abc") "hi" ["arg"]).msg =
        "hi" ++ " \x7bCID " ++ (some "abc" : Option String).getD "" ++
          "\x7d" :=
  ⟨(C3_adapter_appends_cid_suffix.1 (some "abc") "hi" ["arg"]).1,
   (C3_adapter_appends_cid_suffix.1 (some "abc") "hi" ["arg"]).2.1
     ⟨"abc", rfl, by decide⟩⟩

/-- C4: the access-log writer emits exactly one line of the literal form
`<status> <summary> <duration>ms \x7bCID <id-or-null>\x7d`, the duration
rendered in milliseconds with exactly two decimal digits; at status 200,
summary `GET /x HTTP/1.1`, duration 12.345 ms and identifier `abc` the
line is exactly `200 GET /x HTTP/1.1 12.34ms \x7bCID abc\x7d`. -/
theorem C4_access_line_literal_format :
    (∀ h : AccessLogHandler,
        (correlation_id_logger h).2 = some (mkAccessLine h (resolveCid h))
        ∧ mkAccessLine h (resolveCid h) =
            Nat.repr h.status ++ " " ++ h.requestSummary ++ " " ++
              (Nat.repr (roundHundredths h.requestTimeMicros / 100) ++ "." ++
                fracPart2 (roundHundredths h.requestTimeMicros)) ++
              "ms \x7bCID " ++ pyStr (pyOfOpt (resolveCid h)) ++ "\x7d"
        ∧ (fracPart2 (roundHundredths h.requestTimeMicros)).length = 2)
    ∧ correlation_id_logger
        { status := 200, requestSummary := "GET /x HTTP/1.1",
          requestTimeMicros := 12345, correlationIdAttr := some (some "abc"),
          requestHeaders := [], configuredHeader := "Correlation-ID" } =
      (LogLevel.info, some "200 GET /x HTTP/1.1 12.34ms \x7bCID abc\x7d") := by
  exact ⟨fun h => ⟨correlation_id_logger_line h, rfl, rfl⟩, by decide⟩

/-- C5: the access-log writer selects the severity by status band:
below 400 info, 400 to 499 warning, 500 and above error. -/
theorem C5_severity_bands (h : AccessLogHandler) :
    (h.status < 400 → (correlation_id_logger h).1 = LogLevel.info)
    ∧ (400 ≤ h.status → h.status < 500 →
        (correlation_id_logger h).1 = LogLevel.warning)
    ∧ (500 ≤ h.status → (correlation_id_logger h).1 = LogLevel.error) := by
  refine ⟨fun h1 => ?_, fun h1 h2 => ?_, fun h1 => ?_⟩
  · simp [correlation_id_logger, h1]
  · have hn : ¬h.status < 400 := by omega
    simp [correlation_id_logger, hn, h2]
  · have hn4 : ¬h.status < 400 := by omega
    have hn5 : ¬h.status < 500 := by omega
    simp [correlation_id_logger, hn4, hn5]

/-- Witness for C5 at statuses 200, 404 and 500. -/
theorem C5_severity_bands_witness :
    (correlation_id_logger
        { status := 200, requestSummary := "GET / HTTP/1.1",
          requestTimeMicros := 1000, correlationIdAttr := none,
          requestHeaders := [], configuredHeader := "Correlation-ID" }).1 =
      LogLevel.info
    ∧ (correlation_id_logger
        { status := 404, requestSummary := "GET / HTTP/1.1",
          requestTimeMicros := 1000, correlationIdAttr := none,
          requestHeaders := [], configuredHeader := "Correlation-ID" }).1 =
      LogLevel.warning
    ∧ (correlation_id_logger
        { status := 500, requestSummary := "GET / HTTP/1.1",
          requestTimeMicros := 1000, correlationIdAttr := none,
          requestHeaders := [], configuredHeader := "Correlation-ID" }).1 =
      LogLevel.error :=
  ⟨(C5_severity_bands _).1 (by decide),
   (C5_severity_bands _).2.1 (by decide) (by decide),
   (C5_severity_bands _).2.2 (by decide)⟩

/-- C6, counterexample: with a provider attached whose `correlation_id`
is `None` and an inbound `Correlation-ID: x`, the writer emits `x` from
the raw header rather than the attached provider's (None) value, so the
provider's value is not always preferred when a provider is attached. -/
theorem C6_provider_preference_counterexample :
    (correlation_id_logger
        { status := 500, requestSummary := "GET / HTTP/1.1",
          requestTimeMicros := 0, correlationIdAttr := some none,
          requestHeaders := [("Correlation-ID", "x")],
          configuredHeader := "Correlation-ID" }).2 =
      some "500 GET / HTTP/1.1 0.00ms \x7bCID x\x7d"
    ∧ (correlation_id_logger
        { status := 500, requestSummary := "GET / HTTP/1.1",
          requestTimeMicros := 0, correlationIdAttr := some none,
          requestHeaders := [("Correlation-ID", "x")],
          configuredHeader := "Correlation-ID" }).2 ≠
      some (mkAccessLine
        { status := 500, requestSummary := "GET / HTTP/1.1",
          requestTimeMicros := 0, correlationIdAttr := some none,
          requestHeaders := [("Correlation-ID", "x")],
          configuredHeader := "Correlation-ID" } none) := by
  decide

/-- C6 (amended): the identifier written to the line is the handler's
`correlation_id` attribute when that evaluates to a non-`None` value;
when it evaluates to `None` (attribute absent, or a provider holding
`None`), the raw inbound `Correlation-ID` header is read directly, and if
that is also absent the literal absent-value marker is emitted. -/
theorem C6_identifier_fallback_chain (h : AccessLogHandler) (v : String) :
    (getattr_correlation_id h = some v →
        (correlation_id_logger h).2 = some (mkAccessLine h (some v)))
    ∧ (getattr_correlation_id h = none →
        (correlation_id_logger h).2 =
          some (mkAccessLine h
            (headersGet h.requestHeaders "Correlation-ID" none))) := by
  constructor
  · intro hv
    have hr : resolveCid h = some v := by simp [resolveCid, hv]
    rw [correlation_id_logger_line h, hr]
  · intro hn
    have hr : resolveCid h =
        headersGet h.requestHeaders "Correlation-ID" none := by
      simp [resolveCid, hn]
    rw [correlation_id_logger_line h, hr]

/-- Witness for C6 (amended): one handler with an attached identifier,
one with none. -/
theorem C6_identifier_fallback_chain_witness :
    (correlation_id_logger
        { status := 200, requestSummary := "GET / HTTP/1.1",
          requestTimeMicros := 0, correlationIdAttr := some (some "abc"),
          requestHeaders := [], configuredHeader := "Correlation-ID" }).2 =
      some (mkAccessLine
        { status := 200, requestSummary := "GET / HTTP/1.1",
          requestTimeMicros := 0, correlationIdAttr := some (some "abc"),
          requestHeaders := [], configuredHeader := "Correlation-ID" }
        (some "abc"))
    ∧ (correlation_id_logger
        { status := 200, requestSummary := "GET / HTTP/1.1",
          requestTimeMicros := 0, correlationIdAttr := none,
          requestHeaders := [("Correlation-ID", "x")],
          configuredHeader := "Correlation-ID" }).2 =
      some (mkAccessLine
        { status := 200, requestSummary := "GET / HTTP/1.1",
          requestTimeMicros := 0, correlationIdAttr := none,
          requestHeaders := [("Correlation-ID", "x")],
          configuredHeader := "Correlation-ID" }
        (headersGet [("Correlation-ID", "x")] "Correlation-ID" none)) :=
  ⟨(C6_identifier_fallback_chain
      { status := 200, requestSummary := "GET / HTTP/1.1",
        requestTimeMicros := 0, correlationIdAttr := some (some "abc"),
        requestHeaders := [], configuredHeader := "Correlation-ID" }
      "abc").1 rfl,
   (C6_identifier_fallback_chain
      { status := 200, requestSummary := "GET / HTTP/1.1",
        requestTimeMicros := 0, correlationIdAttr := none,
        requestHeaders := [("Correlation-ID", "x")],
        configuredHeader := "Correlation-ID" }
      "x").2 rfl⟩

/-- C10: the raw-header fallback fires exactly when the `correlation_id`
attribute evaluates to `None` (including an attached provider holding
`None`); the fallback reads the literal name `Correlation-ID` regardless
of the configured header name (the writer's output does not depend on
that configuration at all); and when that header is also absent the line
carries the literal `None` marker. -/
theorem C10_raw_header_fallback (h : AccessLogHandler) (n1 n2 : String) :
    correlation_id_logger { h with configuredHeader := n1 } =
      correlation_id_logger { h with configuredHeader := n2 }
    ∧ (getattr_correlation_id h = none →
        (correlation_id_logger h).2 =
          some (mkAccessLine h
            (headersGet h.requestHeaders "Correlation-ID" none)))
    ∧ (getattr_correlation_id h = none →
        headersGet h.requestHeaders "Correlation-ID" none = none →
        (correlation_id_logger h).2 = some (mkAccessLine h none)) := by
  refine ⟨rfl, fun hn => ?_, fun hn hh => ?_⟩
  · have hr : resolveCid h =
        headersGet h.requestHeaders "Correlation-ID" none := by
      simp [resolveCid, hn]
    rw [correlation_id_logger_line h, hr]
  · have hr : resolveCid h = none := by simp [resolveCid, hn, hh]
    rw [correlation_id_logger_line h, hr]

/-- Witness for C10: a provider attached with identifier `None`, a custom
configured header name, and no inbound headers. -/
theorem C10_raw_header_fallback_witness :
    correlation_id_logger
        { status := 500, requestSummary := "GET / HTTP/1.1",
          requestTimeMicros := 0, correlationIdAttr := some none,
          requestHeaders := [], configuredHeader := "A" } =
      correlation_id_logger
        { status := 500, requestSummary := "GET / HTTP/1.1",
          requestTimeMicros := 0, correlationIdAttr := some none,
          requestHeaders := [], configuredHeader := "B" }
    ∧ (correlation_id_logger
        { status := 500, requestSummary := "GET / HTTP/1.1",
          requestTimeMicros := 0, correlationIdAttr := some none,
          requestHeaders := [], configuredHeader := "X-Custom" }).2 =
      some (mkAccessLine
        { status := 500, requestSummary := "GET / HTTP/1.1",
          requestTimeMicros := 0, correlationIdAttr := some none,
          requestHeaders := [], configuredHeader := "X-Custom" } none) :=
  ⟨(C10_raw_header_fallback
      { status := 500, requestSummary := "GET / HTTP/1.1",
        requestTimeMicros := 0, correlationIdAttr := some none,
        requestHeaders := [], configuredHeader := "A" } "A" "B").1,
   (C10_raw_header_fallback
      { status := 500, requestSummary := "GET / HTTP/1.1",
        requestTimeMicros := 0, correlationIdAttr := some none,
        requestHeaders := [], configuredHeader := "X-Custom" }
      "A" "B").2.2 rfl rfl⟩

end Correlation
